import Mathlib

/-!
Verification of the devsForFun/starterkit authentication core.

This file gives a shallow embedding, in Lean 4, of the request-time
authentication gate (the Next.js `middleware` function), the in-memory
attempt limiter (`isRateLimited` and the server actions that use it),
the Supabase-backed rate limiter (`checkRateLimit`, with the SQL
function `check_rate_limit` transcribed from the project's migration
documentation), the Upstash-backed limiter factory (`createRateLimiter`),
the client-IP helper (`getClientIp`), and the OAuth callback handler
(`GET` of `app/api/callback/route.ts`).

Strings from the TypeScript source are modelled as lists of characters
(`UrlPath`), timestamps as integers (milliseconds, as `Date.now()`),
and the process-wide JavaScript `Map` objects as functions from keys to
optional records, with explicit state passing.  External calls (Supabase
auth, RPC, profile table) are modelled by explicit outcome parameters:
each theorem quantifies over, or fixes, the outcome the external system
returns, exactly following the branches of the source.
-/

/-- Request paths, modelled as the list of characters. -/
abbrev UrlPath := List Char

/-- Opaque user identity as resolved by `supabase.auth.getUser()`:
`none` means unauthenticated. -/
abbrev UserId := List Char

/-- Result of the middleware: either pass the request through
(`NextResponse.next()`, here `next`), or `NextResponse.redirect` to a
path with a list of query parameters (name, value; values raw, to be
percent-encoded by the URL serializer). -/
inductive MwResult where
  | next : MwResult
  | redirect : UrlPath → List (UrlPath × UrlPath) → MwResult
deriving DecidableEq, Repr

/-- Public routes that do not require authentication, from `middleware`:
`const publicRoutes = ['/', '/login', '/register', '/forgot-password', '/reset-password']`. -/
def publicRoutes : List UrlPath :=
  ["/".toList, "/login".toList, "/register".toList, "/forgot-password".toList,
   "/reset-password".toList]

/-- Route classification from `middleware`:
`publicRoutes.some((route) => { if (route === '/') return pathname === '/';
return pathname === route || pathname.startsWith(route + '/'); })`. -/
def isPublicRoute (pathname : UrlPath) : Bool :=
  publicRoutes.any fun route =>
    if route = "/".toList then pathname = "/".toList
    else pathname = route || (route ++ "/".toList).isPrefixOf pathname

/-- The Session Gate, from `middleware(request)` in the middleware source.
`configured` is whether `NEXT_PUBLIC_SUPABASE_URL` and
`NEXT_PUBLIC_SUPABASE_ANON_KEY` are both present (when not, the gate
logs and returns the response unmodified); `user` is the identity
resolved by `supabase.auth.getUser()`; `pathname` is `request.nextUrl.pathname`.
The branches follow the source in order: missing configuration, the
`/api/` and `/auth/` bypass, the authenticated auth-page redirect to
`/dashboard`, the unauthenticated protected-route redirect to `/login`
with the original path stored in the `redirectTo` query parameter, and
otherwise pass-through. -/
def middleware (configured : Bool) (user : Option UserId) (pathname : UrlPath) : MwResult :=
  if !configured then .next
  else if ("/api/".toList).isPrefixOf pathname || ("/auth/".toList).isPrefixOf pathname then
    .next
  else if user.isSome &&
      (pathname = "/login".toList || pathname = "/register".toList ||
       pathname = "/forgot-password".toList) then
    .redirect "/dashboard".toList []
  else if user.isNone && !isPublicRoute pathname then
    .redirect "/login".toList [("redirectTo".toList, pathname)]
  else .next

example : middleware true none "/dashboard".toList =
    .redirect "/login".toList [("redirectTo".toList, "/dashboard".toList)] := by decide

example : middleware true none "/login".toList = .next := by decide

example : middleware true (some "u1".toList) "/login".toList =
    .redirect "/dashboard".toList [] := by decide

example : middleware true (some "u1".toList) "/reset-password".toList = .next := by decide

example : middleware true none "/api/x".toList = .next := by decide

/-- Bytes (values below 256) kept verbatim by the WHATWG
application/x-www-form-urlencoded serializer used by
`loginUrl.searchParams.set('redirectTo', pathname)`: ASCII alphanumerics
and the four characters asterisk, hyphen, period, underscore. -/
def isFormUrlSafe (b : Nat) : Bool :=
  (48 ≤ b && b ≤ 57) || (65 ≤ b && b ≤ 90) || (97 ≤ b && b ≤ 122) ||
  b = 42 || b = 45 || b = 46 || b = 95

/-- Code of the uppercase hexadecimal digit for a value below 16. -/
def toHexDigitCode (n : Nat) : Nat :=
  if n < 10 then 48 + n else 55 + n

/-- Value of a hexadecimal digit given its character code, accepting
both uppercase and lowercase letters. -/
def fromHexDigitCode (c : Nat) : Option Nat :=
  if 48 ≤ c && c ≤ 57 then some (c - 48)
  else if 65 ≤ c && c ≤ 70 then some (c - 55)
  else if 97 ≤ c && c ≤ 102 then some (c - 87)
  else none

/-- Percent-encoding of a byte sequence as performed by the
`URLSearchParams` serializer when the redirect URL is written out:
safe bytes pass through, the space byte 0x20 becomes a plus sign
(code 43), every other byte becomes a percent sign (code 37) followed
by two uppercase hexadecimal digits. Input and output are byte lists. -/
def percentEncodeBytes : List Nat → List Nat
  | [] => []
  | b :: bs =>
    (if b = 32 then [43]
     else if isFormUrlSafe b then [b]
     else [37, toHexDigitCode (b / 16), toHexDigitCode (b % 16)]) ++
    percentEncodeBytes bs

/-- Decoding of a form-urlencoded byte sequence: a plus sign decodes to
the space byte, a percent sign followed by two hexadecimal digits
decodes to the corresponding byte, any other byte passes through.
Returns `none` on a malformed percent escape. -/
def percentDecodeBytes : List Nat → Option (List Nat)
  | [] => some []
  | c :: cs =>
    if c = 43 then (percentDecodeBytes cs).map (32 :: ·)
    else if c = 37 then
      cs.head?.bind fun c1 =>
      cs.tail.head?.bind fun c2 =>
      (fromHexDigitCode c1).bind fun hi =>
      (fromHexDigitCode c2).bind fun lo =>
      (percentDecodeBytes cs.tail.tail).map ((16 * hi + lo) :: ·)
    else (percentDecodeBytes cs).map (c :: ·)
termination_by l => l.length
decreasing_by
  all_goals simp [List.length_tail]
  all_goals omega

example : percentEncodeBytes [47, 100, 97, 115 ] = [37, 50, 70, 100, 97, 115] := by decide

example : percentDecodeBytes [37, 50, 70, 100] = some [47, 100] := by
  simp [percentDecodeBytes, fromHexDigitCode]

/-- Per-key state of the in-memory rate limiter, from the server
actions source: a count together with a timestamp. -/
structure AttemptRecord where
  count : Nat
  timestamp : Int
deriving DecidableEq, Repr

/-- The process-wide JavaScript Map objects keyed by identifier string
(`loginAttempts`, `signupAttempts`, `passwordResetAttempts`), modelled
as a function from keys to optional records. -/
def AttemptMap := List Char → Option AttemptRecord

/-- The empty map: `new Map()`. -/
def AttemptMap.empty : AttemptMap := fun _ => none

/-- JavaScript `map.set(k, v)`. -/
def AttemptMap.set (m : AttemptMap) (k : List Char) (v : AttemptRecord) : AttemptMap :=
  fun k' => if k' = k then some v else m k'

/-- JavaScript `map.delete(k)`. -/
def AttemptMap.del (m : AttemptMap) (k : List Char) : AttemptMap :=
  fun k' => if k' = k then none else m k'

/-- Rate limit configuration constants from the server actions source. -/
def LOGIN_MAX_ATTEMPTS : Nat := 5

/-- Login rate limit window: `60 * 1000` milliseconds. -/
def LOGIN_WINDOW_MS : Int := 60 * 1000

/-- Password reset attempt cap: `3 attempts`. -/
def PASSWORD_RESET_MAX_ATTEMPTS : Nat := 3

/-- Password reset window: `60 * 1000` milliseconds. -/
def PASSWORD_RESET_WINDOW_MS : Int := 60 * 1000

/-- The in-memory check-and-record operation `isRateLimited(attemptMap,
identifier, maxAttempts, windowMs)` from the server actions source,
with `now = Date.now()` passed explicitly and the mutated map returned.
Returns the boolean the source returns (true means rate limited) and
the updated map: a missing key is stored as count 1 with the current
time; an expired window (`now - attempt.timestamp > windowMs`) resets
the record to count 1 with the current time; otherwise the count is
incremented, the timestamp kept, and the call is limited iff the new
count exceeds `maxAttempts`. -/
def isRateLimited (attemptMap : AttemptMap) (identifier : List Char)
    (maxAttempts : Nat) (windowMs : Int) (now : Int) : Bool × AttemptMap :=
  match attemptMap identifier with
  | none => (false, attemptMap.set identifier ⟨1, now⟩)
  | some attempt =>
    if now - attempt.timestamp > windowMs then
      (false, attemptMap.set identifier ⟨1, now⟩)
    else
      let incremented : AttemptRecord := ⟨attempt.count + 1, attempt.timestamp⟩
      (decide (incremented.count > maxAttempts), attemptMap.set identifier incremented)

example : (isRateLimited AttemptMap.empty "a@b.c".toList 5 60000 0).1 = false := by decide

example :
    ((isRateLimited AttemptMap.empty "a@b.c".toList 5 60000 0).2 "a@b.c".toList) =
      some ⟨1, 0⟩ := by decide

/-- Structured result of a server action: the source returns either an
object with `success: true` or an object carrying an error message. -/
inductive ActionResult where
  | success : ActionResult
  | failure : List Char → ActionResult
deriving DecidableEq, Repr

/-- Outcome of `supabase.auth.resetPasswordForEmail`: success, an error
object carrying a message, or a thrown exception (caught by the
enclosing try/catch of the server action). -/
inductive ProviderOutcome where
  | ok : ProviderOutcome
  | err : List Char → ProviderOutcome
  | thrown : ProviderOutcome
deriving DecidableEq, Repr

/-- The `requestPasswordReset(email)` server action, with the
process-wide `passwordResetAttempts` map and the current time passed
explicitly and the updated map returned.  Follows the source: lowercase
the email to obtain the identifier, run the combined
check-and-record `isRateLimited` with the password-reset limits and
deny with the rate-limit message when it reports limited; otherwise
call the provider; a provider error whose message differs from
`'User not found'` yields the failure message; any other provider
error (in particular `'User not found'`) and provider success both
clear the attempt counter and return success; a thrown exception is
caught and mapped to the generic unexpected-error message. -/
def requestPasswordReset (passwordResetAttempts : AttemptMap) (now : Int)
    (email : List Char) (provider : ProviderOutcome) : ActionResult × AttemptMap :=
  let identifier := email.map Char.toLower
  let checked := isRateLimited passwordResetAttempts identifier
    PASSWORD_RESET_MAX_ATTEMPTS PASSWORD_RESET_WINDOW_MS now
  if checked.1 then
    (.failure "Too many password reset requests. Please try again later.".toList, checked.2)
  else
    match provider with
    | .thrown =>
      (.failure "An unexpected error occurred. Please try again.".toList, checked.2)
    | .err message =>
      if message ≠ "User not found".toList then
        (.failure "Failed to send password reset email. Please try again.".toList, checked.2)
      else
        (.success, checked.2.del identifier)
    | .ok => (.success, checked.2.del identifier)

example :
    (requestPasswordReset AttemptMap.empty 0 "a@b.c".toList .ok).1 = .success := by decide

example :
    (requestPasswordReset AttemptMap.empty 0 "a@b.c".toList
      (.err "User not found".toList)).1 = .success := by decide

/-- One row of the table returned by the `check_rate_limit` RPC:
`allowed BOOLEAN, current_count INT, reset_at TIMESTAMPTZ` (the
timestamp modelled as an integer). -/
structure RpcRow where
  allowed : Bool
  current_count : Int
  reset_at : Int
deriving DecidableEq, Repr

/-- Result type of `checkRateLimit` from `lib/ratelimit-supabase.ts`:
`allowed`, `remaining`, and the reset time (a Date, modelled as an
integer timestamp). -/
structure RateLimitResult where
  allowed : Bool
  remaining : Int
  resetAt : Int
deriving DecidableEq, Repr

/-- Outcome of the `supabase.rpc('check_rate_limit', …)` round trip:
the call may throw, return an error object, or return data (possibly
null, possibly an empty row list). -/
inductive RpcOutcome where
  | thrown : RpcOutcome
  | rpcError : RpcOutcome
  | ok : Option (List RpcRow) → RpcOutcome
deriving DecidableEq, Repr

/-- The `checkRateLimit(identifier, actionKey, maxAttempts, windowSeconds)`
function from `lib/ratelimit-supabase.ts`, with the development-mode
flag, the current time, and the RPC outcome passed explicitly.
Development mode returns allowed with the full maximum; a thrown
exception or an RPC error fails open the same way; otherwise the first
returned row (defaulting to allowed with count 0 and reset now, as
`data?.[0] || …` does) is mapped to the result, with
`remaining = Math.max(0, maxAttempts - current_count)`. -/
def checkRateLimit (devMode : Bool) (identifier actionKey : List Char)
    (maxAttempts windowSeconds : Int) (now : Int) (rpc : RpcOutcome) : RateLimitResult :=
  if devMode then
    ⟨true, maxAttempts, now + windowSeconds * 1000⟩
  else
    match rpc with
    | .thrown => ⟨true, maxAttempts, now + windowSeconds * 1000⟩
    | .rpcError => ⟨true, maxAttempts, now + windowSeconds * 1000⟩
    | .ok data =>
      let result := ((data.getD []).head?).getD ⟨true, 0, now⟩
      ⟨result.allowed, max 0 (maxAttempts - result.current_count), result.reset_at⟩

example :
    checkRateLimit false "1.2.3.4".toList "login_attempt".toList 5 60 0 .thrown =
      ⟨true, 5, 60000⟩ := by decide

/-- Response shape of the Upstash limiter's `limit` call as used in
`lib/ratelimit.ts` (the `pending` promise is omitted: it carries no
data). -/
structure UpstashResponse where
  success : Bool
  limit : Int
  remaining : Int
  reset : Int
deriving DecidableEq, Repr

/-- The `defaultRateLimitResponse` constant from `lib/ratelimit.ts`:
`success: true, limit: 999, remaining: 999, reset: Date.now() + 1000`. -/
def defaultRateLimitResponse (now : Int) : UpstashResponse :=
  ⟨true, 999, 999, now + 1000⟩

/-- The `limit` closure produced by `createRateLimiter(requests, duration)`
in `lib/ratelimit.ts`: when in development mode or when Upstash is not
configured, the stub limiter returns `defaultRateLimitResponse`;
otherwise the wrapper forwards the underlying library call and, should
it throw, fails open with `defaultRateLimitResponse`.  The configured
`requests` count is a parameter of the factory; the underlying call's
outcome is passed explicitly. -/
def createRateLimiterLimit (requests : Int) (devOrUnconfigured : Bool) (now : Int)
    (underlying : Except Unit UpstashResponse) : UpstashResponse :=
  if devOrUnconfigured then defaultRateLimitResponse now
  else
    match underlying with
    | .ok r => r
    | .error _ => defaultRateLimitResponse now

/-- Outcome of `supabase.auth.exchangeCodeForSession(code)`: an error,
a session with no user, or a session with a user identity. -/
inductive ExchangeOutcome where
  | exchangeError : ExchangeOutcome
  | noUser : ExchangeOutcome
  | user : List Char → ExchangeOutcome
deriving DecidableEq, Repr

/-- Outcome of the `user_profiles` lookup
(`.select('id').eq('id', …).single()`): a profile row found, the
no-row error with code `PGRST116` (a new user), or some other error. -/
inductive ProfileLookup where
  | found : ProfileLookup
  | noRow : ProfileLookup
  | otherError : ProfileLookup
deriving DecidableEq, Repr

/-- Observable outcome of the OAuth callback handler: the redirect
target with its query parameters, whether `auth.signOut()` was called,
and whether a `user_profiles` row was inserted. -/
structure CallbackResult where
  redirectPath : UrlPath
  query : List (UrlPath × UrlPath)
  signedOut : Bool
  profileInserted : Bool
deriving DecidableEq, Repr

/-- The `GET` handler of `app/api/callback/route.ts`.  `code` is the
`code` query parameter (absent or falsy modelled as `none`); `next` is
the resolved `next` parameter (the source defaults it to
`'/dashboard'`); the outcomes of the code exchange and of the profile
lookup, the Google-signup feature flag, and whether the profile insert
errors are passed explicitly.  Branches follow the source: no code or
a failed exchange or a session without a user redirects to `/login`
with the `Authentication failed` error parameter; a new user
(no-row lookup) with Google signups disabled is signed out and
redirected to `/login` with the registrations-closed error parameter
and no profile insert; a new user with signups allowed gets a profile
insert attempted (the row exists afterwards iff the insert does not
error) and is redirected to `next`; an existing profile or a lookup
error is redirected to `next` untouched. -/
def oauthCallbackGET (code : Option (List Char)) (next : UrlPath)
    (exchange : ExchangeOutcome) (lookup : ProfileLookup)
    (googleSignupAllowed : Bool) (insertFails : Bool) : CallbackResult :=
  match code with
  | some _ =>
    match exchange with
    | .exchangeError =>
      ⟨"/login".toList, [("error".toList, "Authentication failed".toList)], false, false⟩
    | .noUser =>
      ⟨"/login".toList, [("error".toList, "Authentication failed".toList)], false, false⟩
    | .user _ =>
      match lookup with
      | .noRow =>
        if !googleSignupAllowed then
          ⟨"/login".toList,
           [("error".toList,
             "New registrations are currently closed. Please contact the administrator.".toList)],
           true, false⟩
        else
          ⟨next, [], false, !insertFails⟩
      | .found => ⟨next, [], false, false⟩
      | .otherError => ⟨next, [], false, false⟩
  | none =>
    ⟨"/login".toList, [("error".toList, "Authentication failed".toList)], false, false⟩

example :
    oauthCallbackGET none "/dashboard".toList .noUser .found true false =
      ⟨"/login".toList, [("error".toList, "Authentication failed".toList)], false, false⟩ := by
  decide

/-- Reading a map right after setting the same key. -/
theorem AttemptMap.set_self (m : AttemptMap) (k : List Char) (v : AttemptRecord) :
    m.set k v k = some v := by
  simp [AttemptMap.set]

/-- A call of the combined check-and-record on a key with no stored
record is allowed and stores a fresh record of count 1. -/
theorem isRateLimited_of_none (m : AttemptMap) (k : List Char)
    (maxAttempts : Nat) (windowMs now : Int) (h : m k = none) :
    isRateLimited m k maxAttempts windowMs now = (false, m.set k ⟨1, now⟩) := by
  simp [isRateLimited, h]

/-- A call of the combined check-and-record within the active window
increments the stored count, keeps the window start, and is limited
exactly when the new count exceeds the maximum. -/
theorem isRateLimited_of_active (m : AttemptMap) (k : List Char)
    (maxAttempts : Nat) (windowMs now : Int) (c : Nat) (t : Int)
    (h : m k = some ⟨c, t⟩) (hw : now - t ≤ windowMs) :
    isRateLimited m k maxAttempts windowMs now =
      (decide (c + 1 > maxAttempts), m.set k ⟨c + 1, t⟩) := by
  simp only [isRateLimited, h]
  rw [if_neg (by omega)]

/-- A call of the combined check-and-record after the window has
expired is allowed and resets the record to count 1 at the current
time. -/
theorem isRateLimited_of_expired (m : AttemptMap) (k : List Char)
    (maxAttempts : Nat) (windowMs now : Int) (c : Nat) (t : Int)
    (h : m k = some ⟨c, t⟩) (hw : now - t > windowMs) :
    isRateLimited m k maxAttempts windowMs now = (false, m.set k ⟨1, now⟩) := by
  simp only [isRateLimited, h]
  rw [if_pos (by omega)]

/-- C2: with the gate configured, an authenticated visitor requesting
`/login`, `/register`, or `/forgot-password` is redirected to
`/dashboard`, while requesting `/reset-password` while authenticated
passes through. -/
theorem C2_authenticated_auth_pages (u : UserId) :
    middleware true (some u) "/login".toList = .redirect "/dashboard".toList [] ∧
    middleware true (some u) "/register".toList = .redirect "/dashboard".toList [] ∧
    middleware true (some u) "/forgot-password".toList = .redirect "/dashboard".toList [] ∧
    middleware true (some u) "/reset-password".toList = .next :=
  ⟨rfl, rfl, rfl, rfl⟩

/-- C8: in the OAuth callback, a successful code exchange for an
identity with no existing profile row while the Google-signup flag is
disabled signs the session out, redirects to `/login` with the
explanatory error query parameter, and inserts no profile row. -/
theorem C8_new_user_google_disabled (code uid : List Char) (next : UrlPath)
    (insertFails : Bool) :
    oauthCallbackGET (some code) next (.user uid) .noRow false insertFails =
      ⟨"/login".toList,
       [("error".toList,
         "New registrations are currently closed. Please contact the administrator.".toList)],
       true, false⟩ :=
  rfl

/-- C10: with the gate configured, an authenticated request to a strict
subpath of `/login`, `/register`, or `/forgot-password` is not
redirected to `/dashboard`: it passes through, because the auth-page
redirect tests exact path equality while the public-route test matches
by prefix. -/
theorem C10_authenticated_subpath_passes (u : UserId) (s : UrlPath) :
    middleware true (some u) ("/login/".toList ++ s) = .next ∧
    middleware true (some u) ("/register/".toList ++ s) = .next ∧
    middleware true (some u) ("/forgot-password/".toList ++ s) = .next := by
  refine ⟨?_, ?_, ?_⟩ <;>
    simp [middleware, isPublicRoute, publicRoutes, List.isPrefixOf, String.toList]

/-- C6: a path is classified public exactly when it is the root `/`, or
equals one of `/login`, `/register`, `/forgot-password`,
`/reset-password`, or starts with one of them followed by the path
separator; the root matches only by exact equality. -/
theorem C6_public_route_matching (p : UrlPath) :
    isPublicRoute p = true ↔
      (p = "/".toList ∨
       (p = "/login".toList ∨ ("/login/".toList).isPrefixOf p = true) ∨
       (p = "/register".toList ∨ ("/register/".toList).isPrefixOf p = true) ∨
       (p = "/forgot-password".toList ∨ ("/forgot-password/".toList).isPrefixOf p = true) ∨
       (p = "/reset-password".toList ∨ ("/reset-password/".toList).isPrefixOf p = true)) := by
  simp [isPublicRoute, publicRoutes, String.toList]

/-- Decoding a hexadecimal digit code produced by the encoder recovers
the value. -/
theorem fromHexDigitCode_toHexDigitCode (n : Nat) (h : n < 16) :
    fromHexDigitCode (toHexDigitCode n) = some n := by
  interval_cases n <;> decide

/-- Decoding inverts the form-urlencoded percent-encoding on every
byte sequence. -/
theorem percentDecodeBytes_percentEncodeBytes (bs : List Nat)
    (h : ∀ b ∈ bs, b < 256) :
    percentDecodeBytes (percentEncodeBytes bs) = some bs := by
  induction bs with
  | nil => simp [percentEncodeBytes, percentDecodeBytes]
  | cons b bs ih =>
    have hb : b < 256 := h b (List.mem_cons_self b bs)
    have ih' := ih fun x hx => h x (List.mem_cons_of_mem b hx)
    by_cases h32 : b = 32
    · subst h32
      simp [percentEncodeBytes, percentDecodeBytes, ih']
    · by_cases hsafe : isFormUrlSafe b = true
      · have h43 : b ≠ 43 := by rintro rfl; revert hsafe; decide
        have h37 : b ≠ 37 := by rintro rfl; revert hsafe; decide
        simp [percentEncodeBytes, percentDecodeBytes, h32, hsafe, h43, h37, ih']
      · have hdiv : b / 16 < 16 := by omega
        have hmod : b % 16 < 16 := by omega
        simp [percentEncodeBytes, percentDecodeBytes, h32, hsafe,
          fromHexDigitCode_toHexDigitCode _ hdiv, fromHexDigitCode_toHexDigitCode _ hmod, ih']
        omega

/-- C1 counterexample: `/api/x` is not in the configured public set,
yet the gate passes an unauthenticated request to it through, because
the `/api/` infrastructure bypass precedes the protected-route
redirect; so not every non-public path is redirected to `/login`. -/
theorem C1_counterexample :
    isPublicRoute "/api/x".toList = false ∧
    middleware true none "/api/x".toList = .next := by
  decide

/-- C1 (amended): with the gate configured, every request path that is
neither in the configured public set nor bypassed (starting with
`/api/` or `/auth/`) is, when the resolved user is null, redirected to
`/login` with the `redirectTo` query parameter holding exactly the
original path; moreover the form-urlencoded percent-encoding applied
when that query parameter is serialized is lossless on every byte
sequence, so the encoded parameter decodes back to the original path. -/
theorem C1_unauthenticated_redirect_to_login (p : UrlPath)
    (hapi : ("/api/".toList).isPrefixOf p = false)
    (hauth : ("/auth/".toList).isPrefixOf p = false)
    (hpub : isPublicRoute p = false) :
    middleware true none p = .redirect "/login".toList [("redirectTo".toList, p)] ∧
    ∀ bs : List Nat, (∀ b ∈ bs, b < 256) →
      percentDecodeBytes (percentEncodeBytes bs) = some bs := by
  constructor
  · unfold middleware
    rw [hapi, hauth, hpub]
    simp
  · exact fun bs h => percentDecodeBytes_percentEncodeBytes bs h

/-- Witness for C1 at the concrete path `/dashboard`. -/
theorem C1_unauthenticated_redirect_to_login_witness :
    middleware true none "/dashboard".toList =
      .redirect "/login".toList [("redirectTo".toList, "/dashboard".toList)] :=
  (C1_unauthenticated_redirect_to_login "/dashboard".toList (by decide) (by decide)
    (by decide)).1

/-- Iterated application of the combined check-and-record for one key
at the given sequence of call times, returning the final map. -/
def isRateLimitedRun (m : AttemptMap) (k : List Char) (maxAttempts : Nat)
    (windowMs : Int) : List Int → AttemptMap
  | [] => m
  | t :: ts =>
    isRateLimitedRun (isRateLimited m k maxAttempts windowMs t).2 k maxAttempts windowMs ts

/-- Repeated calls within the active window add one to the stored count
per call and keep the stored window start. -/
theorem isRateLimitedRun_active (k : List Char) (maxAttempts : Nat) (windowMs : Int)
    (t1 : Int) (ts : List Int) :
    ∀ (m : AttemptMap) (c : Nat), m k = some ⟨c, t1⟩ → (∀ t ∈ ts, t - t1 ≤ windowMs) →
      (isRateLimitedRun m k maxAttempts windowMs ts) k = some ⟨c + ts.length, t1⟩ := by
  induction ts with
  | nil =>
    intro m c h _
    simpa [isRateLimitedRun] using h
  | cons t ts ih =>
    intro m c h hts
    simp only [isRateLimitedRun]
    rw [isRateLimited_of_active m k maxAttempts windowMs t c t1 h (hts t (by simp))]
    have step := ih (m.set k ⟨c + 1, t1⟩) (c + 1) (AttemptMap.set_self m k ⟨c + 1, t1⟩)
      (fun t' ht' => hts t' (by simp [ht']))
    rw [step]
    congr 1
    simp
    omega

/-- C3: the in-memory limiter with the login configuration (5 attempts
per 60000 ms): starting from a key with no record, after five calls of
the combined check-and-record within the window, a sixth call within
the window is denied; and a call issued strictly more than the window
after the window's first attempt is allowed again and resets the
record to a fresh full window (count 1 at the new time). -/
theorem C3_five_attempts_deny_then_reset (m : AttemptMap) (k : List Char)
    (t1 t2 t3 t4 t5 t6 t7 : Int) (h0 : m k = none)
    (h2 : t2 - t1 ≤ LOGIN_WINDOW_MS) (h3 : t3 - t1 ≤ LOGIN_WINDOW_MS)
    (h4 : t4 - t1 ≤ LOGIN_WINDOW_MS) (h5 : t5 - t1 ≤ LOGIN_WINDOW_MS)
    (h6 : t6 - t1 ≤ LOGIN_WINDOW_MS) (h7 : t7 - t1 > LOGIN_WINDOW_MS) :
    (isRateLimited (isRateLimitedRun m k LOGIN_MAX_ATTEMPTS LOGIN_WINDOW_MS
        [t1, t2, t3, t4, t5]) k LOGIN_MAX_ATTEMPTS LOGIN_WINDOW_MS t6).1 = true ∧
    (isRateLimited
        (isRateLimited (isRateLimitedRun m k LOGIN_MAX_ATTEMPTS LOGIN_WINDOW_MS
          [t1, t2, t3, t4, t5]) k LOGIN_MAX_ATTEMPTS LOGIN_WINDOW_MS t6).2
        k LOGIN_MAX_ATTEMPTS LOGIN_WINDOW_MS t7).1 = false ∧
    (isRateLimited
        (isRateLimited (isRateLimitedRun m k LOGIN_MAX_ATTEMPTS LOGIN_WINDOW_MS
          [t1, t2, t3, t4, t5]) k LOGIN_MAX_ATTEMPTS LOGIN_WINDOW_MS t6).2
        k LOGIN_MAX_ATTEMPTS LOGIN_WINDOW_MS t7).2 k = some ⟨1, t7⟩ := by
  have hrun : (isRateLimitedRun m k LOGIN_MAX_ATTEMPTS LOGIN_WINDOW_MS
      [t1, t2, t3, t4, t5]) k = some ⟨5, t1⟩ := by
    have hstep : isRateLimitedRun m k LOGIN_MAX_ATTEMPTS LOGIN_WINDOW_MS [t1, t2, t3, t4, t5] =
        isRateLimitedRun (m.set k ⟨1, t1⟩) k LOGIN_MAX_ATTEMPTS LOGIN_WINDOW_MS
          [t2, t3, t4, t5] := by
      simp only [isRateLimitedRun,
        isRateLimited_of_none m k LOGIN_MAX_ATTEMPTS LOGIN_WINDOW_MS t1 h0]
    rw [hstep]
    have htimes : ∀ t ∈ [t2, t3, t4, t5], t - t1 ≤ LOGIN_WINDOW_MS := by
      intro t ht
      simp at ht
      rcases ht with rfl | rfl | rfl | rfl <;> assumption
    have := isRateLimitedRun_active k LOGIN_MAX_ATTEMPTS LOGIN_WINDOW_MS t1 [t2, t3, t4, t5]
      (m.set k ⟨1, t1⟩) 1 (AttemptMap.set_self m k ⟨1, t1⟩) htimes
    simpa using this
  have h6eq := isRateLimited_of_active _ k LOGIN_MAX_ATTEMPTS LOGIN_WINDOW_MS t6 5 t1 hrun h6
  refine ⟨?_, ?_, ?_⟩
  · rw [h6eq]
    rfl
  · rw [h6eq]
    rw [isRateLimited_of_expired _ k LOGIN_MAX_ATTEMPTS LOGIN_WINDOW_MS t7 6 t1
      (AttemptMap.set_self _ _ _) h7]
  · rw [h6eq]
    rw [isRateLimited_of_expired _ k LOGIN_MAX_ATTEMPTS LOGIN_WINDOW_MS t7 6 t1
      (AttemptMap.set_self _ _ _) h7]
    exact AttemptMap.set_self _ _ _

/-- Witness for C3 at concrete times 0, 1, 2, 3, 4, then 5 (denied) and
60001 (allowed again). -/
theorem C3_five_attempts_deny_then_reset_witness :
    (isRateLimited (isRateLimitedRun AttemptMap.empty "u@e.co".toList
        LOGIN_MAX_ATTEMPTS LOGIN_WINDOW_MS [0, 1, 2, 3, 4]) "u@e.co".toList
        LOGIN_MAX_ATTEMPTS LOGIN_WINDOW_MS 5).1 = true ∧
    (isRateLimited
        (isRateLimited (isRateLimitedRun AttemptMap.empty "u@e.co".toList
          LOGIN_MAX_ATTEMPTS LOGIN_WINDOW_MS [0, 1, 2, 3, 4]) "u@e.co".toList
          LOGIN_MAX_ATTEMPTS LOGIN_WINDOW_MS 5).2
        "u@e.co".toList LOGIN_MAX_ATTEMPTS LOGIN_WINDOW_MS 60001).1 = false ∧
    (isRateLimited
        (isRateLimited (isRateLimitedRun AttemptMap.empty "u@e.co".toList
          LOGIN_MAX_ATTEMPTS LOGIN_WINDOW_MS [0, 1, 2, 3, 4]) "u@e.co".toList
          LOGIN_MAX_ATTEMPTS LOGIN_WINDOW_MS 5).2
        "u@e.co".toList LOGIN_MAX_ATTEMPTS LOGIN_WINDOW_MS 60001).2 "u@e.co".toList =
      some ⟨1, 60001⟩ :=
  C3_five_attempts_deny_then_reset AttemptMap.empty "u@e.co".toList 0 1 2 3 4 5 60001 rfl
    (by decide) (by decide) (by decide) (by decide) (by decide) (by decide)

/-- C4 counterexample: the in-memory limiter's check is not read-only:
called on a key with no stored record it persists a fresh record of
count 1, so the attempt map is changed by the check. -/
theorem C4_counterexample :
    AttemptMap.empty "k".toList = none ∧
    (isRateLimited AttemptMap.empty "k".toList 5 60000 0).2 "k".toList = some ⟨1, 0⟩ := by
  decide

/-- C4 (amended): the local-memory backend has a single combined
check-and-record operation: a call on a key with no stored record is
allowed but immediately persists a record of count 1 at the current
time — the increment happens inside this same operation, there being
no separate record operation, so the attempt map is changed by the
check. -/
theorem C4_check_persists (m : AttemptMap) (k : List Char)
    (maxAttempts : Nat) (windowMs now : Int) (h : m k = none) :
    (isRateLimited m k maxAttempts windowMs now).1 = false ∧
    (isRateLimited m k maxAttempts windowMs now).2 k = some ⟨1, now⟩ := by
  rw [isRateLimited_of_none m k maxAttempts windowMs now h]
  exact ⟨rfl, AttemptMap.set_self m k ⟨1, now⟩⟩

/-- Witness for C4 on the empty map. -/
theorem C4_check_persists_witness :
    (isRateLimited AttemptMap.empty "k".toList 5 60000 0).1 = false ∧
    (isRateLimited AttemptMap.empty "k".toList 5 60000 0).2 "k".toList = some ⟨1, 0⟩ :=
  C4_check_persists AttemptMap.empty "k".toList 5 60000 0 rfl

/-- C5 counterexample: the Upstash-backed limiter configured for 5
requests fails open on an infrastructure error with its fixed default
response, whose remaining count is 999, not the configured maximum. -/
theorem C5_counterexample :
    (createRateLimiterLimit 5 false 0 (.error ())).success = true ∧
    (createRateLimiterLimit 5 false 0 (.error ())).remaining ≠ 5 := by
  decide

/-- C5 (amended): any infrastructure error during a rate-limit check
yields an allowed result: the Supabase-backed `checkRateLimit` returns
allowed with remaining equal to the configured maximum both on a
thrown exception and on an RPC error, while the Upstash-backed limiter
returns its fixed default response (success, remaining 999) when the
underlying call throws. -/
theorem C5_fail_open (identifier actionKey : List Char)
    (maxAttempts windowSeconds now requests nowU : Int) :
    (checkRateLimit false identifier actionKey maxAttempts windowSeconds now
      .thrown).allowed = true ∧
    (checkRateLimit false identifier actionKey maxAttempts windowSeconds now
      .thrown).remaining = maxAttempts ∧
    (checkRateLimit false identifier actionKey maxAttempts windowSeconds now
      .rpcError).allowed = true ∧
    (checkRateLimit false identifier actionKey maxAttempts windowSeconds now
      .rpcError).remaining = maxAttempts ∧
    (createRateLimiterLimit requests false nowU (.error ())).success = true ∧
    (createRateLimiterLimit requests false nowU (.error ())).remaining = 999 :=
  ⟨rfl, rfl, rfl, rfl, rfl, rfl⟩

/-- C7: the password-reset request action returns the same structured
result whether or not the target email corresponds to an existing
user: when neither call is rate limited, a call whose provider
succeeds and a call whose provider reports the user not found return
equal results (both success). -/
theorem C7_reset_enumeration_free (m1 m2 : AttemptMap) (now1 now2 : Int)
    (emailKnown emailUnknown : List Char)
    (h1 : (isRateLimited m1 (emailKnown.map Char.toLower)
      PASSWORD_RESET_MAX_ATTEMPTS PASSWORD_RESET_WINDOW_MS now1).1 = false)
    (h2 : (isRateLimited m2 (emailUnknown.map Char.toLower)
      PASSWORD_RESET_MAX_ATTEMPTS PASSWORD_RESET_WINDOW_MS now2).1 = false) :
    (requestPasswordReset m1 now1 emailKnown .ok).1 =
      (requestPasswordReset m2 now2 emailUnknown (.err "User not found".toList)).1 := by
  simp [requestPasswordReset, h1, h2]

/-- Witness for C7 with two concrete emails on the empty map. -/
theorem C7_reset_enumeration_free_witness :
    (requestPasswordReset AttemptMap.empty 0 "known@x.io".toList .ok).1 =
      (requestPasswordReset AttemptMap.empty 0 "ghost@x.io".toList
        (.err "User not found".toList)).1 :=
  C7_reset_enumeration_free AttemptMap.empty AttemptMap.empty 0 0 "known@x.io".toList
    "ghost@x.io".toList (by decide) (by decide)

/-- C9: within an active window every check-and-record call for a key
adds one to the stored count and never advances the stored window
start, with denial exactly when the incremented count exceeds the
maximum; the first call strictly more than the window after the stored
window start resets the record to count 1 with a fresh window start
and is allowed — so denial for a key ends once the window has elapsed
since that window's first attempt, no matter how many attempts
occurred. -/
theorem C9_window_invariant (m : AttemptMap) (k : List Char)
    (maxAttempts : Nat) (windowMs now : Int) (c : Nat) (t : Int)
    (h : m k = some ⟨c, t⟩) :
    (now - t ≤ windowMs →
      (isRateLimited m k maxAttempts windowMs now).2 k = some ⟨c + 1, t⟩ ∧
      (isRateLimited m k maxAttempts windowMs now).1 = decide (c + 1 > maxAttempts)) ∧
    (now - t > windowMs →
      (isRateLimited m k maxAttempts windowMs now).2 k = some ⟨1, now⟩ ∧
      (isRateLimited m k maxAttempts windowMs now).1 = false) := by
  constructor
  · intro hw
    rw [isRateLimited_of_active m k maxAttempts windowMs now c t h hw]
    exact ⟨AttemptMap.set_self _ _ _, rfl⟩
  · intro hw
    rw [isRateLimited_of_expired m k maxAttempts windowMs now c t h hw]
    exact ⟨AttemptMap.set_self _ _ _, rfl⟩

/-- Witness for C9 on a stored record of count 6 whose window has
expired. -/
theorem C9_window_invariant_witness :
    (isRateLimited (AttemptMap.empty.set "k".toList ⟨6, 0⟩) "k".toList 5 60000 60001).2
        "k".toList = some ⟨1, 60001⟩ ∧
    (isRateLimited (AttemptMap.empty.set "k".toList ⟨6, 0⟩) "k".toList 5 60000 60001).1 =
      false :=
  (C9_window_invariant (AttemptMap.empty.set "k".toList ⟨6, 0⟩) "k".toList 5 60000 60001 6 0
    (by decide)).2 (by decide)
